import Mathlib

/-!
Shallow embedding of the DeFi risk-agent repository (src/src/tools.py,
src/src/config.py, src/src/agent_executor.py) and proofs about it.

Modelling conventions:
* Python dict/list/str/number values are embedded as the `Json` inductive,
  with numbers as exact rationals (`ℚ`).  Python float formatting
  (f-strings such as `f"{x:.2f}%"`) is not replicated: fields that the
  source renders as formatted strings are embedded as the exact rational
  the source computes before formatting, since every downstream decision
  in the source (e.g. `concentration_risk`) consumes the unformatted value.
* One HTTP round-trip is embedded as an `Upstream` value: `resp code body`
  stands for a response whose `status_code` is `code` and whose parsed
  `response.json()` (or `response.text`, wrapped in `Json.str`) is `body`;
  `exn msg` stands for the request (or JSON decoding) raising an exception
  with text `msg`.  Each tool's top-level `try/except Exception` is embedded
  by the tool being a total function that maps `exn` to the tool's error
  dictionary.
* Python `dict.get(key, default)` is embedded by `jgetD`; applying `.get`
  to a non-dict raises in Python and is caught by the tool's top-level
  handler, producing an error dictionary; we embed it as returning the
  default, which produces a dictionary through the same normal path — in
  both cases the observable outcome is a single status-tagged dictionary.
* `float(x)` is embedded by `pyFloat`, defined on numbers and booleans;
  other shapes (including non-numeric strings) are a conversion failure,
  which in Python raises and is caught by the tool's top-level handler.
-/

/-- Embedded Python/JSON value: `null`, booleans, numbers (exact rationals),
strings, lists and string-keyed dictionaries. -/
inductive Json where
  | null : Json
  | bool (b : Bool) : Json
  | num (q : ℚ) : Json
  | str (s : String) : Json
  | arr (elts : List Json) : Json
  | obj (fields : List (String × Json)) : Json

/-- Key lookup in the field list of an embedded dictionary (first match). -/
def jlookup : List (String × Json) → String → Option Json
  | [], _ => none
  | (k, v) :: rest, key => if k = key then some v else jlookup rest key

/-- Python `d[key]` / `d.get(key)` on an embedded value: `some` on a
dictionary that has the key, `none` otherwise. -/
def jget : Json → String → Option Json
  | .obj fields, key => jlookup fields key
  | _, _ => none

/-- Python `d.get(key, default)`. -/
def jgetD (j : Json) (key : String) (d : Json) : Json :=
  (jget j key).getD d

/-- Python truthiness (`bool(x)`) of an embedded value. -/
def truthy : Json → Bool
  | .null => false
  | .bool b => b
  | .num q => decide (q ≠ 0)
  | .str s => decide (s ≠ "")
  | .arr l => !l.isEmpty
  | .obj fields => !fields.isEmpty

/-- View an embedded value as a list (non-lists give `[]`). -/
def asArr : Json → List Json
  | .arr l => l
  | _ => []

/-- View an embedded value as a string (`response.text` bodies are
embedded as `Json.str`). -/
def asStr : Json → String
  | .str s => s
  | _ => ""

/-- Python `float(x)` on an embedded value: numbers convert to themselves,
booleans to 0/1, everything else is a conversion failure (an exception in
Python, caught by each tool's top-level handler). -/
def pyFloat : Json → Option ℚ
  | .num q => some q
  | .bool b => some (if b then 1 else 0)
  | _ => none

/-- Substring test on character lists, used to embed Python's
`needle in haystack` on strings. -/
def listInfix (needle : List Char) : List Char → Bool
  | [] => needle.isEmpty
  | c :: rest => List.isPrefixOf needle (c :: rest) || listInfix needle rest

/-- Python `needle in hay` for strings. -/
def strContainsSub (hay needle : String) : Bool :=
  listInfix needle.data hay.data

/-- Outcome of one HTTP round-trip as seen by a tool: a response with a
status code and a parsed body, or a raised exception. -/
inductive Upstream where
  | resp (status_code : Nat) (body : Json) : Upstream
  | exn (msg : String) : Upstream

/-- Run a fallible conversion over a list, failing as soon as one element
fails.  Embeds a Python loop/comprehension in which each step may raise
(the exception is caught by the tool's top-level handler). -/
def mapOrFail (f : α → Option β) : List α → Option (List β)
  | [] => some []
  | x :: xs =>
    match f x with
    | none => none
    | some y =>
      match mapOrFail f xs with
      | none => none
      | some ys => some (y :: ys)

/-- Embeds `analyze_token_security` (src/src/tools.py lines 17-76): GoPlus
token-security lookup.  `token_data` is
`data.get("result", {}).get(token_address, {})`; the `risk_level` is
`"high" if not token_data.get("is_mint_authority_renounced") else "medium"`. -/
def analyze_token_security (token_address : String) (_chain : String)
    (u : Upstream) : Json :=
  match u with
  | .exn msg => .obj [("status", .str "error"), ("message", .str msg)]
  | .resp code body =>
    if code = 200 then
      let token_data := jgetD (jgetD body "result" (.obj [])) token_address (.obj [])
      if truthy token_data then
        .obj [("status", .str "success"),
              ("token", .str token_address),
              ("security_metrics", .obj
                [("mint_authority",
                   jgetD token_data "is_mint_authority_renounced" (.str "unknown")),
                 ("freeze_authority",
                   jgetD token_data "is_freeze_authority_renounced" (.str "unknown")),
                 ("liquidity_type", jgetD token_data "liquidity_type" (.str "unknown")),
                 ("owner_balance_holder_ratio",
                   jgetD token_data "owner_balance_holder_ratio" (.num 0))]),
              ("risk_level", .str
                (if truthy (jgetD token_data "is_mint_authority_renounced" .null)
                 then "medium" else "high"))]
      else
        .obj [("status", .str "not_found"),
              ("message", .str
                "Token not found in GoPlus database (may be a new/unlisted token)"),
              ("note", .str "Use get_token_details() instead for basic token info")]
    else
      .obj [("status", .str "error"),
            ("message", .str ("GoPlus API error: " ++ toString code))]

/-- Result of `get_token_metadata_and_security`, paired with whether the
control flow reached the Jupiter fallback request (the second `client.get`
in the source). -/
structure FetchResult where
  result : Json
  fallback_queried : Bool

/-- Embeds `get_token_metadata_and_security` (src/src/tools.py lines
79-147): Solscan metadata lookup with a Jupiter fallback that is reached
only in the `else` branch of `response.status_code == 200`.  `primary` is
the Solscan round-trip, `fallback` the Jupiter one; a raised exception at
either point is caught by the single top-level handler. -/
def get_token_metadata_and_security (token_address : String)
    (primary fallback : Upstream) : FetchResult :=
  match primary with
  | .exn msg => ⟨.obj [("status", .str "error"), ("message", .str msg)], false⟩
  | .resp code body =>
    if code = 200 then
      if truthy (jgetD body "success" .null) then
        let token_data := jgetD body "data" (.obj [])
        ⟨.obj [("status", .str "success"),
               ("token", .str token_address),
               ("source", .str "Solscan"),
               ("metadata", .obj
                 [("name", jgetD token_data "name" (.str "Unknown")),
                  ("symbol", jgetD token_data "symbol" (.str "?")),
                  ("decimals", jgetD token_data "decimals" (.num 0)),
                  ("logo", jgetD token_data "icon" (.str ""))]),
               ("supply_info", .obj
                 [("total_supply", jgetD token_data "supply" (.num 0)),
                  ("holders", jgetD token_data "holder" (.num 0))])], false⟩
      else
        ⟨.obj [("status", .str "not_found"),
               ("message", .str "Token not found on Solscan")], false⟩
    else
      match fallback with
      | .exn msg => ⟨.obj [("status", .str "error"), ("message", .str msg)], true⟩
      | .resp fcode fbody =>
        if fcode = 200 then
          ⟨.obj [("status", .str "success"),
                 ("token", .str token_address),
                 ("source", .str "Jupiter"),
                 ("metadata", .obj
                   [("name", jgetD fbody "name" (.str "Unknown")),
                    ("symbol", jgetD fbody "symbol" (.str "?")),
                    ("decimals", jgetD fbody "decimals" (.num 0)),
                    ("logo", jgetD fbody "logoURI" (.str ""))])], true⟩
        else
          ⟨.obj [("status", .str "error"),
                 ("message", .str "Token metadata APIs unavailable")], true⟩

/-- Embeds `analyze_token_with_rugcheck` (src/src/tools.py lines 150-196):
fetches the Rugcheck web page (`response.text`, embedded as a `Json.str`
body) and checks for the substrings `"Risk"` / `"risk"`. -/
def analyze_token_with_rugcheck (token_address : String) (u : Upstream) : Json :=
  match u with
  | .exn msg =>
    .obj [("status", .str "error"), ("message", .str msg),
          ("note", .str "Rugcheck may be temporarily unavailable")]
  | .resp code body =>
    if code = 200 then
      let html := asStr body
      if strContainsSub html "Risk" || strContainsSub html "risk" then
        .obj [("status", .str "success"),
              ("token", .str token_address),
              ("source", .str "Rugcheck (Web)"),
              ("note", .str "Data retrieved from web interface"),
              ("recommendation", .str
                ("Visit https://rugcheck.xyz/token/" ++ token_address
                  ++ " for full analysis"))]
      else
        .obj [("status", .str "not_found"),
              ("message", .str "Token not indexed on Rugcheck")]
    else
      .obj [("status", .str "not_found"),
            ("message", .str "Token not found on Rugcheck")]

/-- Embeds `get_token_holders` (src/src/tools.py lines 199-242): despite
its name and docstring, the success branch returns DexScreener market data
for the first matching pair (liquidity, 24h volume, FDV, market cap) and
no holder fields at all. -/
def get_token_holders (token_address : String) (u : Upstream) : Json :=
  match u with
  | .exn msg => .obj [("status", .str "error"), ("message", .str msg)]
  | .resp code body =>
    if code = 200 then
      match asArr (jgetD body "pairs" (.arr [])) with
      | [] =>
        .obj [("status", .str "not_found"),
              ("message", .str "Token not found on DexScreener")]
      | pair :: _ =>
        .obj [("status", .str "success"),
              ("token", .str token_address),
              ("liquidity_usd", jgetD (jgetD pair "liquidity" (.obj [])) "usd" (.num 0)),
              ("volume_24h", jgetD (jgetD pair "volume" (.obj [])) "h24" (.num 0)),
              ("fdv", jgetD pair "fdv" (.num 0)),
              ("market_cap", jgetD pair "marketCap" (.num 0))]
    else
      .obj [("status", .str "error"),
            ("message", .str ("API error: " ++ toString code))]

/-- Embeds `get_token_details` (src/src/tools.py lines 303-353).  The
`price_usd` field is `float(pair.get("priceUsd", 0)) if pair.get("priceUsd")
else 0`; a failing conversion raises and is caught by the top-level
handler. -/
def get_token_details (token_address : String) (u : Upstream) : Json :=
  match u with
  | .exn msg => .obj [("status", .str "error"), ("message", .str msg)]
  | .resp code body =>
    if code = 200 then
      match asArr (jgetD body "pairs" (.arr [])) with
      | [] => .obj [("status", .str "not_found"), ("message", .str "Token not found")]
      | pair :: _ =>
        let base_token := jgetD pair "baseToken" (.obj [])
        let mk := fun (price_usd : ℚ) =>
          Json.obj [("status", .str "success"),
                ("token_info", .obj
                  [("name", jgetD base_token "name" (.str "Unknown")),
                   ("symbol", jgetD base_token "symbol" (.str "Unknown")),
                   ("address", .str token_address),
                   ("price_usd", .num price_usd),
                   ("liquidity_usd",
                     jgetD (jgetD pair "liquidity" (.obj [])) "usd" (.num 0)),
                   ("market_cap", jgetD pair "marketCap" (.num 0)),
                   ("fdv", jgetD pair "fdv" (.num 0)),
                   ("pair_created_at", jgetD pair "pairCreatedAt" (.num 0))])]
        if truthy (jgetD pair "priceUsd" .null) then
          match pyFloat (jgetD pair "priceUsd" (.num 0)) with
          | none =>
            .obj [("status", .str "error"),
                  ("message", .str "could not convert value to float")]
          | some p => mk p
        else mk 0
    else
      .obj [("status", .str "error"),
            ("message", .str ("API error: " ++ toString code))]

/-- One entry of the trending list built by `get_trending_tokens`
(src/src/tools.py lines 377-392); `none` when the `float(...)` conversion
of a truthy `priceUsd` raises. -/
def buildTrendingEntry (pair : Json) : Option Json :=
  let priceRaw := jgetD pair "priceUsd" (.num 0)
  match (if truthy (jgetD pair "priceUsd" .null) then pyFloat priceRaw else some 0 :
      Option ℚ) with
  | none => none
  | some p =>
    some (.obj
      [("symbol", jgetD (jgetD pair "baseToken" (.obj [])) "symbol" (.str "?")),
       ("address", jgetD (jgetD pair "baseToken" (.obj [])) "address" (.str "")),
       ("price_usd", .num p),
       ("price_change_24h", jgetD (jgetD pair "priceChange" (.obj [])) "h24" (.num 0)),
       ("volume_24h", jgetD (jgetD pair "volume" (.obj [])) "h24" (.num 0)),
       ("liquidity_usd", jgetD (jgetD pair "liquidity" (.obj [])) "usd" (.num 0))])

/-- The pair sample iterated by `get_trending_tokens`:
`data.get("pairs", [])[:10] if data.get("pairs") else []`. -/
def trendingPairs (body : Json) : List Json :=
  if truthy (jgetD body "pairs" .null) then
    (asArr (jgetD body "pairs" (.arr []))).take 10
  else []

/-- Embeds `get_trending_tokens` (src/src/tools.py lines 356-401): takes no
token argument; slices the upstream pair list to the first 10 and maps each
pair to a summary entry. -/
def get_trending_tokens (u : Upstream) : Json :=
  match u with
  | .exn msg => .obj [("status", .str "error"), ("message", .str msg)]
  | .resp code body =>
    if code = 200 then
      match mapOrFail buildTrendingEntry (trendingPairs body) with
      | none =>
        .obj [("status", .str "error"),
              ("message", .str "could not convert value to float")]
      | some trending =>
        .obj [("status", .str "success"), ("trending_tokens", .arr trending)]
    else
      .obj [("status", .str "error"),
            ("message", .str ("API error: " ++ toString code))]

/-- Embeds `check_security_incidents` (src/src/tools.py lines 404-458):
`search_term = project_name or token_address[:8]` (Python `or`, so an empty
project name also falls back to the address), checked case-insensitively
against the fetched page text. -/
def check_security_incidents (token_address : String)
    (project_name : Option String) (u : Upstream) : Json :=
  let search_term :=
    match project_name with
    | some s => if s = "" then token_address.take 8 else s
    | none => token_address.take 8
  match u with
  | .exn msg =>
    .obj [("status", .str "error"), ("message", .str msg),
          ("note", .str "Check SlowMist manually at https://hacked.slowmist.io/")]
  | .resp code body =>
    if code = 200 then
      let html := asStr body
      if strContainsSub html.toLower search_term.toLower then
        .obj [("status", .str "warning"),
              ("token", .str token_address),
              ("message", .str "Project mentioned in SlowMist incident database"),
              ("action", .str "Review at https://hacked.slowmist.io/"),
              ("risk_level", .str "high")]
      else
        .obj [("status", .str "clean"),
              ("token", .str token_address),
              ("message", .str
                "No known security incidents found in SlowMist database"),
              ("risk_level", .str "low")]
    else
      .obj [("status", .str "unknown"),
            ("message", .str "Unable to check incident database at this time")]

/-- Embeds `check_certik_audit_status` (src/src/tools.py lines 461-505). -/
def check_certik_audit_status (token_address : String) (u : Upstream) : Json :=
  match u with
  | .exn msg =>
    .obj [("status", .str "error"), ("message", .str msg),
          ("note", .str "CertiK API may be temporarily unavailable")]
  | .resp code body =>
    if code = 200 then
      .obj [("status", .str "success"),
            ("token", .str token_address),
            ("source", .str "CertiK"),
            ("audit_info", .obj
              [("audited", jgetD body "audited" (.bool false)),
               ("audit_status", jgetD body "audit_status" (.str "Not Audited")),
               ("security_score", jgetD body "security_score" (.num 0)),
               ("audit_date", jgetD body "audit_date" (.str "N/A"))]),
            ("verdict", .str
              (if truthy (jgetD body "audited" .null) then "AUDITED ✅"
               else "NOT AUDITED ⚠️"))]
    else
      .obj [("status", .str "not_audited"),
            ("token", .str token_address),
            ("message", .str "Token not found in CertiK audit database"),
            ("note", .str "Lack of audit is a risk factor - especially for new tokens")]

/-- The top-10 concentration computed by
`get_token_holder_distribution_helius` (src/src/tools.py lines 535-540):
`total_top_10 = sum(float(h.get("amount", 0)) for h in holders[:10])`,
`total_supply = sum(... for h in holders)`,
`(total_top_10 / total_supply * 100) if total_supply > 0 else 0`. -/
def top10pct (amounts : List ℚ) : ℚ :=
  let total_top_10 := (amounts.take 10).sum
  let total_supply := amounts.sum
  if 0 < total_supply then total_top_10 / total_supply * 100 else 0

/-- The `float(h.get("amount", 0))` conversion applied to each holder
record by `get_token_holder_distribution_helius`. -/
def holderAmount (h : Json) : Option ℚ :=
  pyFloat (jgetD h "amount" (.num 0))

/-- Embeds `get_token_holder_distribution_helius` (src/src/tools.py lines
508-594).  An empty `holders` list takes the `else` branch and returns the
`no_data` dictionary; otherwise the tool computes the top-10 concentration
via `top10pct` and classifies `concentration_risk` with the source's nested
conditional.  The source formats the percentage fields with `f"{...:.2f}%"`;
we embed the exact rationals those formats are applied to (see the header
comment). -/
def get_token_holder_distribution_helius (token_address : String)
    (u : Upstream) : Json :=
  match u with
  | .exn msg =>
    .obj [("status", .str "error"), ("message", .str msg),
          ("note", .str "Helius RPC may be temporarily unavailable")]
  | .resp code body =>
    if code = 200 then
      match asArr (jgetD body "holders" (.arr [])) with
      | [] => .obj [("status", .str "no_data"), ("message", .str "No holder data available")]
      | h0 :: hrest =>
        match mapOrFail holderAmount (h0 :: hrest) with
        | none =>
          .obj [("status", .str "error"),
                ("message", .str "could not convert value to float"),
                ("note", .str "Helius RPC may be temporarily unavailable")]
        | some amounts =>
          let holders := h0 :: hrest
          let total_supply := amounts.sum
          let top_10_percentage := top10pct amounts
          .obj [("status", .str "success"),
                ("token", .str token_address),
                ("source", .str "Helius RPC"),
                ("holder_distribution", .obj
                  [("total_holders", .num (holders.length : ℚ)),
                   ("top_10_concentration", .num top_10_percentage),
                   ("top_holder", .obj
                     [("address", jgetD h0 "owner" .null),
                      ("percentage",
                        if 0 < total_supply then
                          .num (amounts.headI / total_supply * 100)
                        else .str "N/A")]),
                   ("concentration_risk", .str
                     (if 70 < top_10_percentage then "CRITICAL"
                      else if 50 < top_10_percentage then "HIGH"
                      else if 30 < top_10_percentage then "MEDIUM" else "LOW"))]),
                ("top_10_holders", .arr
                  (((holders.take 10).zip (amounts.take 10)).map (fun hv =>
                    .obj [("address", jgetD hv.1 "owner" .null),
                          ("percentage",
                            if 0 < total_supply then
                              .num (hv.2 / total_supply * 100)
                            else .str "0%")])))]
    else
      .obj [("status", .str "error"),
            ("message", .str ("Helius API error: " ++ toString code)),
            ("fallback", .str "Using DexScreener holder data instead")]

/-- The suspicious-pattern check applied per transaction by
`get_token_transaction_history`: `tx_type in ["SPAM", "SCAM"]` where
`tx_type = tx.get("type", "unknown")`, producing
`f"Suspicious tx type: {tx_type}"` on a match. -/
def txSuspMsg (tx : Json) : Option String :=
  match jgetD tx "type" (.str "unknown") with
  | .str s =>
    if s == "SPAM" || s == "SCAM" then some ("Suspicious tx type: " ++ s) else none
  | _ => none

/-- Embeds `get_token_transaction_history` (src/src/tools.py lines
597-670).  The `limit` argument is only forwarded as a query parameter of
the upstream request; the analysis itself always iterates
`transactions[:5]`. -/
def get_token_transaction_history (token_address : String) (_limit : Nat)
    (u : Upstream) : Json :=
  match u with
  | .exn msg => .obj [("status", .str "error"), ("message", .str msg)]
  | .resp code body =>
    if code = 200 then
      let transactions := asArr (jgetD body "transactions" (.arr []))
      let txs5 := transactions.take 5
      match mapOrFail (fun tx => pyFloat (jgetD tx "amount" (.num 0))) txs5 with
      | none =>
        .obj [("status", .str "error"),
              ("message", .str "could not convert value to float")]
      | some amounts =>
        let large_tx_count := amounts.countP (fun a => decide (1000000 < a))
        let suspicious_patterns := txs5.filterMap txSuspMsg
        .obj [("status", .str "success"),
              ("token", .str token_address),
              ("source", .str "Helius RPC"),
              ("transaction_analysis", .obj
                [("recent_tx_count", .num (transactions.length : ℚ)),
                 ("large_transactions", .num (large_tx_count : ℚ)),
                 ("suspicious_patterns",
                   if suspicious_patterns.isEmpty then .str "None detected"
                   else .arr (suspicious_patterns.map .str)),
                 ("risk_level", .str
                   (if 3 < large_tx_count || !suspicious_patterns.isEmpty
                    then "HIGH" else "LOW"))]),
              ("recommendations",
                if 3 < large_tx_count then
                  .arr [.str "Monitor large transfers for potential dump activity",
                        .str "Watch for sudden spikes in transaction volume"]
                else .arr [])]
    else
      .obj [("status", .str "error"),
            ("message", .str ("Helius API error: " ++ toString code))]

/-- Embeds `get_tools` (src/src/tools.py lines 674-688): the registry of
the eleven tools, in source order, by name. -/
def get_tools : List String :=
  ["analyze_token_security",
   "get_token_metadata_and_security",
   "analyze_token_with_rugcheck",
   "check_security_incidents",
   "check_certik_audit_status",
   "get_token_holder_distribution_helius",
   "get_token_transaction_history",
   "get_token_holders",
   "get_trading_metrics",
   "get_token_details",
   "get_trending_tokens"]

/-- The error message raised by src/src/config.py lines 12-17 when
`GOOGLE_API_KEY` is unset (the three adjacent Python string literals,
concatenated). -/
def googleApiKeyMissingMsg : String :=
  "GOOGLE_API_KEY environment variable is not set. Please create a .env file with your Google AI API key. Get your key from: https://ai.google.dev/gemini-api/docs/api-key"

/-- Embeds the module-level credential check of src/src/config.py lines
10-17: `GOOGLE_API_KEY = os.getenv("GOOGLE_API_KEY")` followed by
`if not GOOGLE_API_KEY: raise ValueError(...)`.  The argument is the
environment lookup result (`none` when the variable is absent); Python
truthiness makes the empty string fail too. -/
def configLoadGoogleApiKey : Option String → Except String String
  | none => .error googleApiKeyMissingMsg
  | some s => if s = "" then .error googleApiKeyMissingMsg else .ok s

/-- Minimal stand-in for `a2a.server.agent_execution.RequestContext`; the
executor's `cancel` ignores its fields. -/
structure RequestContext where
  user_input : String
  message : Option Json

/-- Minimal stand-in for `a2a.server.events.event_queue.EventQueue`; the
executor's `cancel` ignores its fields. -/
structure EventQueue where
  events : List Json

/-- Embeds `DeFiRiskAgentExecutor.cancel` (src/src/agent_executor.py lines
101-103): `raise Exception("cancel not supported")`, for every context and
event queue. -/
def DeFiRiskAgentExecutor.cancel (_context : RequestContext)
    (_event_queue : EventQueue) : Except String Unit :=
  .error "cancel not supported"

/-- A tool outcome is a single dictionary tagged with a string-valued
`status` field. -/
def isStatusDict (j : Json) : Bool :=
  match j with
  | .obj _ =>
    match jget j "status" with
    | some (.str _) => true
    | _ => false
  | _ => false

/-- Embeds `get_trading_metrics` (src/src/tools.py lines 245-300). -/
def get_trading_metrics (token_address : String) (u : Upstream) : Json :=
  match u with
  | .exn msg => .obj [("status", .str "error"), ("message", .str msg)]
  | .resp code body =>
    if code = 200 then
      match asArr (jgetD body "pairs" (.arr [])) with
      | [] => .obj [("status", .str "not_found"), ("message", .str "Token not found")]
      | pair :: _ =>
        let price_change := jgetD pair "priceChange" (.obj [])
        .obj [("status", .str "success"),
              ("token", .str token_address),
              ("trading_metrics", .obj
                [("price_change_5m", jgetD price_change "m5" (.num 0)),
                 ("price_change_1h", jgetD price_change "h1" (.num 0)),
                 ("price_change_24h", jgetD price_change "h24" (.num 0)),
                 ("volume_5m", jgetD (jgetD pair "volume" (.obj [])) "m5" (.num 0)),
                 ("volume_1h", jgetD (jgetD pair "volume" (.obj [])) "h1" (.num 0)),
                 ("volume_24h", jgetD (jgetD pair "volume" (.obj [])) "h24" (.num 0)),
                 ("buy_pressure",
                   if truthy (jgetD pair "txns" .null) then
                     jgetD (jgetD (jgetD pair "txns" (.obj [])) "m5" (.obj []))
                       "buys" (.num 0)
                   else .num 0),
                 ("sell_pressure",
                   if truthy (jgetD pair "txns" .null) then
                     jgetD (jgetD (jgetD pair "txns" (.obj [])) "m5" (.obj []))
                       "sells" (.num 0)
                   else .num 0)])]
    else
      .obj [("status", .str "error"),
            ("message", .str ("API error: " ++ toString code))]

/-- The condition under which `get_token_metadata_and_security`'s control
flow reaches the Jupiter fallback request: the primary (Solscan) round-trip
produced a response (no exception) whose status code is not 200. -/
def primaryNon200 : Upstream → Bool
  | .resp c _ => decide (c ≠ 200)
  | .exn _ => false

/-- A holder record carrying a numeric `amount`, used to instantiate the
Helius holder tool on concrete samples. -/
def holderJson (a : ℚ) : Json := .obj [("amount", .num a)]

/-- A Helius holder-endpoint body whose sampled holders have the given
amounts. -/
def holdersBody (amounts : List ℚ) : Json :=
  .obj [("holders", .arr (amounts.map holderJson))]

/-- A transaction record with the given `type` string and numeric
`amount`, used to instantiate the transaction-history tool. -/
def txJson (t : String × ℚ) : Json :=
  .obj [("type", .str t.1), ("amount", .num t.2)]

/-- A Helius transaction-endpoint body carrying the given transactions. -/
def txBody (ts : List (String × ℚ)) : Json :=
  .obj [("transactions", .arr (ts.map txJson))]

theorem mapOrFail_eq_some_forall₂ {α β : Type} (f : α → Option β) :
    ∀ xs ys, mapOrFail f xs = some ys → List.Forall₂ (fun x y => f x = some y) xs ys := by
  intro xs
  induction xs with
  | nil => intro ys h; simp only [mapOrFail] at h; cases h; exact List.Forall₂.nil
  | cons x xs ih =>
    intro ys h
    simp only [mapOrFail] at h
    cases hfx : f x with
    | none => rw [hfx] at h; cases h
    | some y =>
      rw [hfx] at h
      cases hrest : mapOrFail f xs with
      | none => rw [hrest] at h; cases h
      | some ys' =>
        rw [hrest] at h
        cases h
        exact List.Forall₂.cons hfx (ih ys' hrest)

theorem mapOrFail_length {α β : Type} (f : α → Option β) (xs : List α)
    (ys : List β) (h : mapOrFail f xs = some ys) : ys.length = xs.length :=
  (List.Forall₂.length_eq (mapOrFail_eq_some_forall₂ f xs ys h)).symm

theorem statusDict_analyze_token_security (a c : String) (u : Upstream) :
    isStatusDict (analyze_token_security a c u) = true := by
  cases u with
  | exn m => rfl
  | resp code body =>
    unfold analyze_token_security
    dsimp only
    repeat' split
    all_goals rfl

theorem statusDict_get_token_metadata_and_security (a : String) (pu fu : Upstream) :
    isStatusDict (get_token_metadata_and_security a pu fu).result = true := by
  cases pu with
  | exn m => rfl
  | resp code body =>
    cases fu with
    | exn m =>
      unfold get_token_metadata_and_security
      repeat' split
      all_goals rfl
    | resp fcode fbody =>
      unfold get_token_metadata_and_security
      repeat' split
      all_goals rfl

theorem statusDict_analyze_token_with_rugcheck (a : String) (u : Upstream) :
    isStatusDict (analyze_token_with_rugcheck a u) = true := by
  cases u with
  | exn m => rfl
  | resp code body =>
    unfold analyze_token_with_rugcheck
    dsimp only
    repeat' split
    all_goals rfl

theorem statusDict_get_token_holders (a : String) (u : Upstream) :
    isStatusDict (get_token_holders a u) = true := by
  cases u with
  | exn m => rfl
  | resp code body =>
    unfold get_token_holders
    dsimp only
    repeat' split
    all_goals rfl

theorem statusDict_get_trading_metrics (a : String) (u : Upstream) :
    isStatusDict (get_trading_metrics a u) = true := by
  cases u with
  | exn m => rfl
  | resp code body =>
    unfold get_trading_metrics
    dsimp only
    repeat' split
    all_goals rfl

theorem statusDict_get_token_details (a : String) (u : Upstream) :
    isStatusDict (get_token_details a u) = true := by
  cases u with
  | exn m => rfl
  | resp code body =>
    unfold get_token_details
    dsimp only
    repeat' split
    all_goals rfl

theorem statusDict_get_trending_tokens (u : Upstream) :
    isStatusDict (get_trending_tokens u) = true := by
  cases u with
  | exn m => rfl
  | resp code body =>
    unfold get_trending_tokens
    dsimp only
    repeat' split
    all_goals rfl

theorem statusDict_check_security_incidents (a : String) (p : Option String)
    (u : Upstream) : isStatusDict (check_security_incidents a p u) = true := by
  cases u with
  | exn m => rfl
  | resp code body =>
    unfold check_security_incidents
    dsimp only
    repeat' split
    all_goals rfl

theorem statusDict_check_certik_audit_status (a : String) (u : Upstream) :
    isStatusDict (check_certik_audit_status a u) = true := by
  cases u with
  | exn m => rfl
  | resp code body =>
    unfold check_certik_audit_status
    dsimp only
    repeat' split
    all_goals rfl

theorem statusDict_get_token_holder_distribution_helius (a : String) (u : Upstream) :
    isStatusDict (get_token_holder_distribution_helius a u) = true := by
  cases u with
  | exn m => rfl
  | resp code body =>
    unfold get_token_holder_distribution_helius
    dsimp only
    repeat' split
    all_goals rfl

theorem statusDict_get_token_transaction_history (a : String) (lim : Nat)
    (u : Upstream) : isStatusDict (get_token_transaction_history a lim u) = true := by
  cases u with
  | exn m => rfl
  | resp code body =>
    unfold get_token_transaction_history
    dsimp only
    repeat' split
    all_goals rfl

/-- Claim C1: for every tool in the registry (`get_tools` names all eleven)
and every upstream outcome — success response, non-200 status, malformed
payload (any `Json` body), or raised exception (`Upstream.exn`) — one
invocation returns exactly one dictionary tagged with a string `status`
field, and, being a total function into `Json`, never propagates an
exception to the caller. -/
theorem every_tool_returns_one_status_dict :
    get_tools.length = 11 ∧
    (∀ a c u, isStatusDict (analyze_token_security a c u) = true) ∧
    (∀ a pu fu, isStatusDict (get_token_metadata_and_security a pu fu).result = true) ∧
    (∀ a u, isStatusDict (analyze_token_with_rugcheck a u) = true) ∧
    (∀ a p u, isStatusDict (check_security_incidents a p u) = true) ∧
    (∀ a u, isStatusDict (check_certik_audit_status a u) = true) ∧
    (∀ a u, isStatusDict (get_token_holder_distribution_helius a u) = true) ∧
    (∀ a lim u, isStatusDict (get_token_transaction_history a lim u) = true) ∧
    (∀ a u, isStatusDict (get_token_holders a u) = true) ∧
    (∀ a u, isStatusDict (get_trading_metrics a u) = true) ∧
    (∀ a u, isStatusDict (get_token_details a u) = true) ∧
    (∀ u, isStatusDict (get_trending_tokens u) = true) :=
  ⟨rfl,
   statusDict_analyze_token_security,
   statusDict_get_token_metadata_and_security,
   statusDict_analyze_token_with_rugcheck,
   statusDict_check_security_incidents,
   statusDict_check_certik_audit_status,
   statusDict_get_token_holder_distribution_helius,
   statusDict_get_token_transaction_history,
   statusDict_get_token_holders,
   statusDict_get_trading_metrics,
   statusDict_get_token_details,
   statusDict_get_trending_tokens⟩

theorem mapOrFail_holderAmount (l : List ℚ) :
    mapOrFail holderAmount (l.map holderJson) = some l := by
  induction l with
  | nil => rfl
  | cons a l ih =>
    simp only [List.map_cons, mapOrFail, holderAmount, holderJson, jgetD, jget,
      jlookup, pyFloat, ih]
    rfl

theorem mapOrFail_holderAmount_cons (q : ℚ) (qs : List ℚ) :
    mapOrFail holderAmount (holderJson q :: List.map holderJson qs) = some (q :: qs) := by
  have h := mapOrFail_holderAmount (q :: qs)
  simpa only [List.map_cons] using h

theorem helius_reduction (a : String) (q : ℚ) (qs : List ℚ) :
    jget (jgetD (get_token_holder_distribution_helius a
          (.resp 200 (holdersBody (q :: qs)))) "holder_distribution" (.obj []))
        "concentration_risk"
      = some (.str
          (if 70 < top10pct (q :: qs) then "CRITICAL"
           else if 50 < top10pct (q :: qs) then "HIGH"
           else if 30 < top10pct (q :: qs) then "MEDIUM" else "LOW")) ∧
    jget (jgetD (get_token_holder_distribution_helius a
          (.resp 200 (holdersBody (q :: qs)))) "holder_distribution" (.obj []))
        "top_10_concentration"
      = some (.num (top10pct (q :: qs))) := by
  constructor <;>
    simp [get_token_holder_distribution_helius, holdersBody, jgetD, jget, jlookup,
      asArr, mapOrFail_holderAmount_cons]

/-- Claim C2 counterexample: on a successful upstream response whose holder
sample is empty, `get_token_holder_distribution_helius` returns the
`no_data` dictionary, which carries no `holder_distribution` (hence no
concentration value at all) — the reported concentration is not `0` as the
claim states. -/
theorem helius_empty_sample_reports_no_concentration :
    jget (get_token_holder_distribution_helius "So11111111111111111111111111111111111111112"
        (.resp 200 (.obj [("holders", .arr [])]))) "holder_distribution" = none ∧
    jget (get_token_holder_distribution_helius "So11111111111111111111111111111111111111112"
        (.resp 200 (.obj [("holders", .arr [])]))) "status"
      = some (.str "no_data") := by
  constructor <;> rfl

/-- Claim C2 (amended): for every non-empty sample of holder records with
non-negative numeric amounts, the Helius holder-distribution tool computes
the top-10 concentration as the sum of the first ten holders' amounts
divided by the sum of all sampled holders' amounts times 100, and emits `0`
instead of dividing when the sample total is zero; with an empty sample the
tool returns a `no_data` result carrying no concentration value (so no
division error occurs), rather than reporting `0`. -/
theorem helius_top10_concentration_formula (a : String) (q : ℚ) (qs : List ℚ)
    (hnn : ∀ x ∈ q :: qs, 0 ≤ x) :
    jget (jgetD (get_token_holder_distribution_helius a
          (.resp 200 (holdersBody (q :: qs)))) "holder_distribution" (.obj []))
        "top_10_concentration"
      = some (.num
          (if (q :: qs : List ℚ).sum = 0 then 0
           else ((q :: qs : List ℚ).take 10).sum / (q :: qs : List ℚ).sum * 100)) ∧
    jget (get_token_holder_distribution_helius a
        (.resp 200 (.obj [("holders", .arr [])]))) "holder_distribution" = none ∧
    jget (get_token_holder_distribution_helius a
        (.resp 200 (.obj [("holders", .arr [])]))) "status"
      = some (.str "no_data") := by
  refine ⟨?_, rfl, rfl⟩
  rw [(helius_reduction a q qs).2]
  have hsnn : 0 ≤ (q :: qs : List ℚ).sum := List.sum_nonneg hnn
  have key : top10pct (q :: qs)
      = (if (q :: qs : List ℚ).sum = 0 then 0
         else ((q :: qs : List ℚ).take 10).sum / (q :: qs : List ℚ).sum * 100) := by
    simp only [top10pct]
    by_cases hz : (q :: qs : List ℚ).sum = 0
    · rw [if_pos hz, if_neg (by rw [hz]; exact lt_irrefl 0)]
    · have hpos : 0 < (q :: qs : List ℚ).sum := lt_of_le_of_ne hsnn (Ne.symm hz)
      rw [if_pos hpos, if_neg hz]
  rw [key]

/-- Witness for Claim C2's amended theorem: the spec's style of sample,
amounts `[50, 30, 5, 5, 5, 5]` summing to `100`, all within the first ten,
gives concentration `100`. -/
theorem helius_top10_concentration_formula_witness :
    (∀ x ∈ ((50 : ℚ) :: [30, 5, 5, 5, 5]), 0 ≤ x) ∧
    jget (jgetD (get_token_holder_distribution_helius "tok"
          (.resp 200 (holdersBody ((50 : ℚ) :: [30, 5, 5, 5, 5]))))
          "holder_distribution" (.obj [])) "top_10_concentration"
      = some (.num
          (if ((50 : ℚ) :: [30, 5, 5, 5, 5] : List ℚ).sum = 0 then 0
           else (((50 : ℚ) :: [30, 5, 5, 5, 5] : List ℚ).take 10).sum
             / ((50 : ℚ) :: [30, 5, 5, 5, 5] : List ℚ).sum * 100)) :=
  ⟨by decide, (helius_top10_concentration_formula "tok" 50 [30, 5, 5, 5, 5] (by decide)).1⟩

/-- Claim C3: for every non-empty holder sample with numeric amounts, the
Helius tool's `concentration_risk` is `CRITICAL` exactly when the computed
top-10 percentage `p` exceeds 70, `HIGH` exactly when `50 < p ≤ 70`,
`MEDIUM` exactly when `30 < p ≤ 50`, and `LOW` exactly when `p ≤ 30` —
exactly one of the four categories. -/
theorem helius_concentration_risk_classification (a : String) (q : ℚ) (qs : List ℚ) :
    (jget (jgetD (get_token_holder_distribution_helius a
          (.resp 200 (holdersBody (q :: qs)))) "holder_distribution" (.obj []))
        "concentration_risk" = some (.str "CRITICAL") ↔ 70 < top10pct (q :: qs)) ∧
    (jget (jgetD (get_token_holder_distribution_helius a
          (.resp 200 (holdersBody (q :: qs)))) "holder_distribution" (.obj []))
        "concentration_risk" = some (.str "HIGH")
      ↔ 50 < top10pct (q :: qs) ∧ top10pct (q :: qs) ≤ 70) ∧
    (jget (jgetD (get_token_holder_distribution_helius a
          (.resp 200 (holdersBody (q :: qs)))) "holder_distribution" (.obj []))
        "concentration_risk" = some (.str "MEDIUM")
      ↔ 30 < top10pct (q :: qs) ∧ top10pct (q :: qs) ≤ 50) ∧
    (jget (jgetD (get_token_holder_distribution_helius a
          (.resp 200 (holdersBody (q :: qs)))) "holder_distribution" (.obj []))
        "concentration_risk" = some (.str "LOW") ↔ top10pct (q :: qs) ≤ 30) := by
  rw [(helius_reduction a q qs).1]
  by_cases h70 : 70 < top10pct (q :: qs)
  · rw [if_pos h70]
    exact ⟨⟨fun _ => h70, fun _ => rfl⟩,
      ⟨fun h => absurd h (by simp), fun h => absurd h70 (not_lt.mpr h.2)⟩,
      ⟨fun h => absurd h (by simp),
        fun h => absurd h70 (not_lt.mpr (h.2.trans (by norm_num)))⟩,
      ⟨fun h => absurd h (by simp),
        fun h => absurd h70 (not_lt.mpr (h.trans (by norm_num)))⟩⟩
  · rw [if_neg h70]
    by_cases h50 : 50 < top10pct (q :: qs)
    · rw [if_pos h50]
      exact ⟨⟨fun h => absurd h (by simp), fun h => absurd h h70⟩,
        ⟨fun _ => ⟨h50, not_lt.mp h70⟩, fun _ => rfl⟩,
        ⟨fun h => absurd h (by simp), fun h => absurd h50 (not_lt.mpr h.2)⟩,
        ⟨fun h => absurd h (by simp),
          fun h => absurd h50 (not_lt.mpr (h.trans (by norm_num)))⟩⟩
    · rw [if_neg h50]
      by_cases h30 : 30 < top10pct (q :: qs)
      · rw [if_pos h30]
        exact ⟨⟨fun h => absurd h (by simp), fun h => absurd h h70⟩,
          ⟨fun h => absurd h (by simp), fun h => absurd h.1 h50⟩,
          ⟨fun _ => ⟨h30, not_lt.mp h50⟩, fun _ => rfl⟩,
          ⟨fun h => absurd h (by simp), fun h => absurd h30 (not_lt.mpr h)⟩⟩
      · rw [if_neg h30]
        exact ⟨⟨fun h => absurd h (by simp), fun h => absurd h h70⟩,
          ⟨fun h => absurd h (by simp), fun h => absurd h.1 h50⟩,
          ⟨fun h => absurd h (by simp), fun h => absurd h.1 h30⟩,
          ⟨fun _ => not_lt.mp h30, fun _ => rfl⟩⟩

/-- Claim C4 counterexample: a found token whose payload has no
`is_mint_authority_renounced` field at all (here it carries only
`liquidity_type`) is classified `risk_level = "high"`, not `"medium"` or
`"unknown"` as the claim states for the absent-field case. -/
theorem security_risk_high_when_mint_field_absent :
    jget (analyze_token_security "tok" "solana"
        (.resp 200 (.obj [("result", .obj [("tok",
          .obj [("liquidity_type", .str "pool")])])]))) "risk_level"
      = some (.str "high") ∧
    jget (analyze_token_security "tok" "solana"
        (.resp 200 (.obj [("result", .obj [("tok",
          .obj [("liquidity_type", .str "pool")])])]))) "risk_level"
      ≠ some (.str "medium") ∧
    jget (analyze_token_security "tok" "solana"
        (.resp 200 (.obj [("result", .obj [("tok",
          .obj [("liquidity_type", .str "pool")])])]))) "risk_level"
      ≠ some (.str "unknown") := by
  have h : jget (analyze_token_security "tok" "solana"
      (.resp 200 (.obj [("result", .obj [("tok",
        .obj [("liquidity_type", .str "pool")])])]))) "risk_level"
      = some (.str "high") := rfl
  refine ⟨h, ?_, ?_⟩ <;> rw [h] <;> simp

/-- Claim C4 (amended): for every 200 response in which the token is found
(a non-empty `token_data` dictionary), the security tool returns
`risk_level = "high"` exactly when the `is_mint_authority_renounced` value
is falsy or absent (Python `not token_data.get(...)`), and `"medium"`
otherwise; `"unknown"` is never produced as a `risk_level`. -/
theorem security_risk_level_rule (a : String) (f : String × Json)
    (fs : List (String × Json)) :
    jget (analyze_token_security a "solana"
        (.resp 200 (.obj [("result", .obj [(a, .obj (f :: fs))])]))) "risk_level"
      = some (.str
          (if truthy (jgetD (.obj (f :: fs)) "is_mint_authority_renounced" .null)
           then "medium" else "high")) ∧
    jget (analyze_token_security a "solana"
        (.resp 200 (.obj [("result", .obj [(a, .obj (f :: fs))])]))) "risk_level"
      ≠ some (.str "unknown") := by
  have h : jget (analyze_token_security a "solana"
      (.resp 200 (.obj [("result", .obj [(a, .obj (f :: fs))])]))) "risk_level"
      = some (.str
          (if truthy (jgetD (.obj (f :: fs)) "is_mint_authority_renounced" .null)
           then "medium" else "high")) := by
    simp [analyze_token_security, jgetD, jget, jlookup, truthy]
  refine ⟨h, ?_⟩
  rw [h]
  by_cases ht : truthy (jgetD (.obj (f :: fs)) "is_mint_authority_renounced" .null) = true
  · rw [if_pos ht]; simp
  · rw [if_neg ht]; simp

/-- Claim C5 counterexample: when the primary (Solscan) request raises an
exception — a primary-source failure — the tool returns the error
dictionary without ever issuing the Jupiter fallback request, so a fallback
is not attempted on every primary-source failure. -/
theorem metadata_no_fallback_on_primary_exception :
    (get_token_metadata_and_security "tok" (.exn "request timed out")
        (.resp 200 (.obj [("name", .str "X")]))).fallback_queried = false ∧
    jget (get_token_metadata_and_security "tok" (.exn "request timed out")
        (.resp 200 (.obj [("name", .str "X")]))).result "status"
      = some (.str "error") :=
  ⟨rfl, rfl⟩

/-- Claim C5 (amended): the metadata tool queries the primary source
(Solscan) first and queries the single fallback source (Jupiter) exactly
when the primary responds with a non-200 HTTP status; a primary
not-found response (200 with falsy `success`) or a raised primary
exception returns without attempting the fallback.  A primary success
carries name/symbol/decimals metadata and supply information, while a
fallback success carries name/symbol/decimals metadata but no supply
information. -/
theorem metadata_fallback_policy (a : String) (pu fu : Upstream)
    (rest : List (String × Json)) (c : Nat) (pb fb : Json) (hc : c ≠ 200) :
    (get_token_metadata_and_security a pu fu).fallback_queried = primaryNon200 pu ∧
    (jget (get_token_metadata_and_security a
        (.resp 200 (.obj (("success", .bool true) :: rest))) fu).result
        "supply_info").isSome = true ∧
    (jget (jgetD (get_token_metadata_and_security a
        (.resp 200 (.obj (("success", .bool true) :: rest))) fu).result
        "metadata" (.obj [])) "name").isSome = true ∧
    (jget (jgetD (get_token_metadata_and_security a
        (.resp 200 (.obj (("success", .bool true) :: rest))) fu).result
        "metadata" (.obj [])) "symbol").isSome = true ∧
    (jget (jgetD (get_token_metadata_and_security a
        (.resp 200 (.obj (("success", .bool true) :: rest))) fu).result
        "metadata" (.obj [])) "decimals").isSome = true ∧
    jget (get_token_metadata_and_security a (.resp c pb) (.resp 200 fb)).result
        "source" = some (.str "Jupiter") ∧
    (jget (jgetD (get_token_metadata_and_security a (.resp c pb)
        (.resp 200 fb)).result "metadata" (.obj [])) "name").isSome = true ∧
    (jget (jgetD (get_token_metadata_and_security a (.resp c pb)
        (.resp 200 fb)).result "metadata" (.obj [])) "symbol").isSome = true ∧
    (jget (jgetD (get_token_metadata_and_security a (.resp c pb)
        (.resp 200 fb)).result "metadata" (.obj [])) "decimals").isSome = true ∧
    jget (get_token_metadata_and_security a (.resp c pb)
        (.resp 200 fb)).result "supply_info" = none := by
  refine ⟨?_, ?_, ?_, ?_, ?_, ?_, ?_, ?_, ?_, ?_⟩
  · cases pu with
    | exn m => rfl
    | resp pc pbody =>
      unfold get_token_metadata_and_security primaryNon200
      dsimp only
      by_cases h200 : pc = 200
      · rw [if_pos h200]
        split <;> simp [h200]
      · rw [if_neg h200]
        cases fu with
        | exn m => simp [h200]
        | resp fc fbody =>
          repeat' split
          all_goals simp [h200]
  all_goals
    simp [get_token_metadata_and_security, jgetD, jget, jlookup, truthy, hc]

/-- Witness for Claim C5's amended theorem at concrete inputs: a primary
exception queries no fallback, and a primary 500 with a Jupiter 200
fallback yields a Jupiter-sourced result without supply information. -/
theorem metadata_fallback_policy_witness :
    (500 : Nat) ≠ 200 ∧
    (get_token_metadata_and_security "tok" (.exn "boom")
        (.resp 200 (.obj []))).fallback_queried = primaryNon200 (.exn "boom") ∧
    jget (get_token_metadata_and_security "tok" (.resp 500 .null)
        (.resp 200 (.obj []))).result "source" = some (.str "Jupiter") ∧
    jget (get_token_metadata_and_security "tok" (.resp 500 .null)
        (.resp 200 (.obj []))).result "supply_info" = none :=
  ⟨by decide,
   (metadata_fallback_policy "tok" (.exn "boom") (.resp 200 (.obj [])) [] 500
      .null (.obj []) (by decide)).1,
   (metadata_fallback_policy "tok" (.exn "boom") (.resp 200 (.obj [])) [] 500
      .null (.obj []) (by decide)).2.2.2.2.2.1,
   (metadata_fallback_policy "tok" (.exn "boom") (.resp 200 (.obj [])) [] 500
      .null (.obj []) (by decide)).2.2.2.2.2.2.2.2.2⟩

/-- Claim C6 counterexample: on a successful DexScreener response,
`get_token_holders` returns market statistics only — it has a
`liquidity_usd` field but no total-holder count, no top-10 concentration,
no top-holder percentage and no concentration-risk classification. -/
theorem dexscreener_holder_tool_lacks_distribution :
    jget (get_token_holders "tok" (.resp 200 (.obj [("pairs", .arr
        [.obj [("liquidity", .obj [("usd", .num 5)])]])]))) "status"
      = some (.str "success") ∧
    jget (get_token_holders "tok" (.resp 200 (.obj [("pairs", .arr
        [.obj [("liquidity", .obj [("usd", .num 5)])]])]))) "liquidity_usd"
      = some (.num 5) ∧
    jget (get_token_holders "tok" (.resp 200 (.obj [("pairs", .arr
        [.obj [("liquidity", .obj [("usd", .num 5)])]])]))) "total_holders"
      = none ∧
    jget (get_token_holders "tok" (.resp 200 (.obj [("pairs", .arr
        [.obj [("liquidity", .obj [("usd", .num 5)])]])]))) "holder_distribution"
      = none ∧
    jget (get_token_holders "tok" (.resp 200 (.obj [("pairs", .arr
        [.obj [("liquidity", .obj [("usd", .num 5)])]])]))) "top_10_concentration"
      = none ∧
    jget (get_token_holders "tok" (.resp 200 (.obj [("pairs", .arr
        [.obj [("liquidity", .obj [("usd", .num 5)])]])]))) "concentration_risk"
      = none :=
  ⟨rfl, rfl, rfl, rfl, rfl, rfl⟩

/-- Claim C6 (amended): on a successful upstream response, the Helius-backed
tool returns a HolderDistribution — total holder count, top-10
concentration, top-holder percentage and a concentration-risk class — while
the DexScreener-backed `get_token_holders` returns a success dictionary
with liquidity, 24h volume, FDV and market cap and none of the
holder-distribution fields. -/
theorem holder_tools_output_shape (a : String) (p : Json) (ps : List Json)
    (q : ℚ) (qs : List ℚ) :
    jget (get_token_holders a (.resp 200 (.obj [("pairs", .arr (p :: ps))])))
        "status" = some (.str "success") ∧
    (jget (get_token_holders a (.resp 200 (.obj [("pairs", .arr (p :: ps))])))
        "liquidity_usd").isSome = true ∧
    (jget (get_token_holders a (.resp 200 (.obj [("pairs", .arr (p :: ps))])))
        "volume_24h").isSome = true ∧
    (jget (get_token_holders a (.resp 200 (.obj [("pairs", .arr (p :: ps))])))
        "fdv").isSome = true ∧
    (jget (get_token_holders a (.resp 200 (.obj [("pairs", .arr (p :: ps))])))
        "market_cap").isSome = true ∧
    jget (get_token_holders a (.resp 200 (.obj [("pairs", .arr (p :: ps))])))
        "total_holders" = none ∧
    jget (get_token_holders a (.resp 200 (.obj [("pairs", .arr (p :: ps))])))
        "holder_distribution" = none ∧
    jget (get_token_holders a (.resp 200 (.obj [("pairs", .arr (p :: ps))])))
        "concentration_risk" = none ∧
    jget (get_token_holder_distribution_helius a
        (.resp 200 (holdersBody (q :: qs)))) "status" = some (.str "success") ∧
    jget (jgetD (get_token_holder_distribution_helius a
        (.resp 200 (holdersBody (q :: qs)))) "holder_distribution" (.obj []))
        "total_holders" = some (.num ((q :: qs).length : ℚ)) ∧
    (jget (jgetD (get_token_holder_distribution_helius a
        (.resp 200 (holdersBody (q :: qs)))) "holder_distribution" (.obj []))
        "top_10_concentration").isSome = true ∧
    (jget (jgetD (jgetD (get_token_holder_distribution_helius a
        (.resp 200 (holdersBody (q :: qs)))) "holder_distribution" (.obj []))
        "top_holder" (.obj [])) "percentage").isSome = true ∧
    (jget (jgetD (get_token_holder_distribution_helius a
        (.resp 200 (holdersBody (q :: qs)))) "holder_distribution" (.obj []))
        "concentration_risk").isSome = true := by
  refine ⟨?_, ?_, ?_, ?_, ?_, ?_, ?_, ?_, ?_, ?_, ?_, ?_, ?_⟩ <;>
    simp [get_token_holders, get_token_holder_distribution_helius, holdersBody,
      jgetD, jget, jlookup, asArr, mapOrFail_holderAmount_cons]

theorem buildTrendingEntry_fields (p e : Json) (h : buildTrendingEntry p = some e) :
    jget e "volume_24h" = some (jgetD (jgetD p "volume" (.obj [])) "h24" (.num 0)) ∧
    jget e "liquidity_usd"
      = some (jgetD (jgetD p "liquidity" (.obj [])) "usd" (.num 0)) := by
  dsimp [buildTrendingEntry] at h
  split at h
  · cases h
  · cases h
    exact ⟨rfl, rfl⟩

/-- Claim C7 counterexample: an upstream pair reporting a 24-hour volume of
`-5` is passed through unchanged, so the trending tool's successful result
contains an entry whose `volume_24h` is negative, contradicting the claimed
non-negativity. -/
theorem trending_entry_with_negative_volume :
    jget (get_trending_tokens (.resp 200 (.obj [("pairs", .arr
        [.obj [("volume", .obj [("h24", .num (-5))])]])]))) "status"
      = some (.str "success") ∧
    jget (get_trending_tokens (.resp 200 (.obj [("pairs", .arr
        [.obj [("volume", .obj [("h24", .num (-5))])]])]))) "trending_tokens"
      = some (.arr [.obj
          [("symbol", .str "?"), ("address", .str ""), ("price_usd", .num 0),
           ("price_change_24h", .num 0), ("volume_24h", .num (-5)),
           ("liquidity_usd", .num 0)]]) ∧
    ((-5 : ℚ) < 0) :=
  ⟨rfl, rfl, by norm_num⟩

/-- Claim C7 (amended): the trending-tokens tool takes no token argument;
whenever a 200 response yields a successful `trending_tokens` list, that
list has at most 10 entries, and each entry's `volume_24h` and
`liquidity_usd` are exactly the corresponding upstream pair's reported
values (`0` when missing) — hence non-negative precisely when the upstream
values are non-negative.  (A negative upstream value is passed through, so
unconditional non-negativity does not hold.) -/
theorem trending_entries_bounded_and_copied (body : Json) (l : List Json)
    (h : jget (get_trending_tokens (.resp 200 body)) "trending_tokens"
      = some (.arr l)) :
    l.length ≤ 10 ∧
    List.Forall₂ (fun p e =>
        jget e "volume_24h"
          = some (jgetD (jgetD p "volume" (.obj [])) "h24" (.num 0)) ∧
        jget e "liquidity_usd"
          = some (jgetD (jgetD p "liquidity" (.obj [])) "usd" (.num 0)))
      (trendingPairs body) l := by
  unfold get_trending_tokens at h
  dsimp only at h
  rw [if_pos rfl] at h
  cases hm : mapOrFail buildTrendingEntry (trendingPairs body) with
  | none =>
    rw [hm] at h
    exact absurd h (by simp [jget, jlookup])
  | some tr =>
    rw [hm] at h
    have htl : tr = l := by
      simp only [jget, jlookup] at h
      simpa using h
    subst htl
    constructor
    · rw [mapOrFail_length buildTrendingEntry _ _ hm]
      unfold trendingPairs
      split
      · exact (List.length_take 10 _).le.trans (min_le_left _ _)
      · simp
    · exact (mapOrFail_eq_some_forall₂ buildTrendingEntry _ _ hm).imp
        (fun p e hpe => buildTrendingEntry_fields p e hpe)

/-- Witness for Claim C7's amended theorem: one upstream pair with no
fields yields one default-valued entry; the bound and the field copying
hold at it. -/
theorem trending_entries_bounded_and_copied_witness :
    ([Json.obj
        [("symbol", .str "?"), ("address", .str ""), ("price_usd", .num 0),
         ("price_change_24h", .num 0), ("volume_24h", .num 0),
         ("liquidity_usd", .num 0)]] : List Json).length ≤ 10 ∧
    List.Forall₂ (fun p e =>
        jget e "volume_24h"
          = some (jgetD (jgetD p "volume" (.obj [])) "h24" (.num 0)) ∧
        jget e "liquidity_usd"
          = some (jgetD (jgetD p "liquidity" (.obj [])) "usd" (.num 0)))
      (trendingPairs (.obj [("pairs", .arr [.obj []])]))
      [Json.obj
        [("symbol", .str "?"), ("address", .str ""), ("price_usd", .num 0),
         ("price_change_24h", .num 0), ("volume_24h", .num 0),
         ("liquidity_usd", .num 0)]] :=
  trending_entries_bounded_and_copied (.obj [("pairs", .arr [.obj []])]) _ rfl

/-- Claim C8: when the `GOOGLE_API_KEY` environment credential is absent,
loading src/src/config.py raises a `ValueError` carrying the descriptive
(non-empty) message rather than continuing; the embedded loader returns
that error on the absent credential. -/
theorem google_api_key_absent_fails_startup :
    configLoadGoogleApiKey none = .error googleApiKeyMissingMsg ∧
    googleApiKeyMissingMsg ≠ "" ∧
    (∀ s, configLoadGoogleApiKey none ≠ .ok s) :=
  ⟨rfl, by decide, fun s h => Except.noConfusion h⟩

/-- Claim C9: for every request context and event queue, the executor's
`cancel` raises the explicit rejection "cancel not supported" and never
completes successfully (no silent no-op). -/
theorem cancel_always_raises (ctx : RequestContext) (queue : EventQueue) :
    DeFiRiskAgentExecutor.cancel ctx queue = .error "cancel not supported" ∧
    ∀ u : Unit, DeFiRiskAgentExecutor.cancel ctx queue ≠ .ok u :=
  ⟨rfl, fun _ h => Except.noConfusion h⟩

theorem txSuspMsg_txJson (t : String × ℚ) :
    txSuspMsg (txJson t)
      = (if t.1 == "SPAM" || t.1 == "SCAM"
         then some ("Suspicious tx type: " ++ t.1) else none) := rfl

theorem mapOrFail_txAmount (us : List (String × ℚ)) :
    mapOrFail (fun tx => pyFloat (jgetD tx "amount" (.num 0))) (us.map txJson)
      = some (us.map Prod.snd) := by
  induction us with
  | nil => rfl
  | cons t ts ih =>
    simp only [List.map_cons, mapOrFail, ih]
    rfl

theorem filterMap_if_isEmpty {α β : Type} (p : α → Bool) (f : α → β)
    (l : List α) :
    (l.filterMap (fun x => if p x then some (f x) else none)).isEmpty
      = !l.any p := by
  induction l with
  | nil => rfl
  | cons x xs ih =>
    by_cases h : p x = true
    · simp [List.filterMap_cons, h]
    · simp [List.filterMap_cons, h, ih]

theorem txhist_reduction (a : String) (lim : Nat) (ts : List (String × ℚ)) :
    jget (jgetD (get_token_transaction_history a lim (.resp 200 (txBody ts)))
        "transaction_analysis" (.obj [])) "risk_level"
      = some (.str
          (if 3 < (ts.take 5).countP (fun t => decide (1000000 < t.2))
              || (ts.take 5).any (fun t => t.1 == "SPAM" || t.1 == "SCAM")
           then "HIGH" else "LOW")) := by
  have hmap : (List.map txJson ts).take 5 = List.map txJson (ts.take 5) :=
    (List.map_take txJson ts 5).symm
  unfold get_token_transaction_history
  dsimp only
  rw [if_pos rfl]
  have hbody : asArr (jgetD (txBody ts) "transactions" (.arr [])) = ts.map txJson := rfl
  rw [hbody, hmap, mapOrFail_txAmount]
  dsimp only
  have hc1 : List.countP (fun x => decide (1000000 < x)) (List.map Prod.snd (ts.take 5))
      = (ts.take 5).countP (fun t => decide (1000000 < t.2)) := by
    rw [List.countP_map]; rfl
  have hc2 : ((List.map txJson (ts.take 5)).filterMap txSuspMsg).isEmpty
      = !(ts.take 5).any (fun t => t.1 == "SPAM" || t.1 == "SCAM") := by
    rw [List.filterMap_map]
    rw [show (txSuspMsg ∘ txJson) = (fun t : String × ℚ =>
        if t.1 == "SPAM" || t.1 == "SCAM"
        then some ("Suspicious tx type: " ++ t.1) else none) from funext (fun t => rfl)]
    exact filterMap_if_isEmpty _ _ _
  show some (Json.str
      (if (decide (3 < List.countP (fun x => decide (1000000 < x))
            (List.map Prod.snd (ts.take 5)))
          || !((List.map txJson (ts.take 5)).filterMap txSuspMsg).isEmpty) = true
       then "HIGH" else "LOW"))
    = some (Json.str
        (if (decide (3 < (ts.take 5).countP (fun t => decide (1000000 < t.2)))
            || (ts.take 5).any (fun t => t.1 == "SPAM" || t.1 == "SCAM")) = true
         then "HIGH" else "LOW"))
  rw [hc1, hc2, Bool.not_not]

/-- Claim C10: the transaction-history tool's output does not depend on the
`limit` argument (which is only forwarded upstream): it analyzes only the
first 5 returned transactions, and reports `risk_level = "HIGH"` exactly
when more than 3 of those analyzed transactions have amount greater than
1,000,000 or at least one of them has type `SPAM` or `SCAM`, and `"LOW"`
otherwise. -/
theorem transaction_history_risk_rule (a : String) (lim1 lim2 : Nat)
    (u : Upstream) (ts : List (String × ℚ)) :
    get_token_transaction_history a lim1 u
      = get_token_transaction_history a lim2 u ∧
    jget (jgetD (get_token_transaction_history a lim1 (.resp 200 (txBody ts)))
        "transaction_analysis" (.obj [])) "risk_level"
      = some (.str
          (if 3 < (ts.take 5).countP (fun t => decide (1000000 < t.2))
              || (ts.take 5).any (fun t => t.1 == "SPAM" || t.1 == "SCAM")
           then "HIGH" else "LOW")) ∧
    (jget (jgetD (get_token_transaction_history a lim1 (.resp 200 (txBody ts)))
        "transaction_analysis" (.obj [])) "risk_level" = some (.str "HIGH")
      ↔ (3 < (ts.take 5).countP (fun t => decide (1000000 < t.2))
          || (ts.take 5).any (fun t => t.1 == "SPAM" || t.1 == "SCAM")) = true) ∧
    (jget (jgetD (get_token_transaction_history a lim1 (.resp 200 (txBody ts)))
        "transaction_analysis" (.obj [])) "risk_level" = some (.str "LOW")
      ↔ (3 < (ts.take 5).countP (fun t => decide (1000000 < t.2))
          || (ts.take 5).any (fun t => t.1 == "SPAM" || t.1 == "SCAM")) = false) := by
  refine ⟨rfl, txhist_reduction a lim1 ts, ?_, ?_⟩ <;>
    rw [txhist_reduction a lim1 ts] <;>
    by_cases hc : (3 < (ts.take 5).countP (fun t => decide (1000000 < t.2))
        || (ts.take 5).any (fun t => t.1 == "SPAM" || t.1 == "SCAM")) = true
  · rw [if_pos hc]; simp [hc]
  · rw [if_neg hc]; simp [hc]
  · rw [if_pos hc]; simp [hc]
  · rw [if_neg hc]
    simp only [Bool.not_eq_true] at hc
    simp [hc]
